import Mathlib

/-!
Verification of the Astro Run endless-runner simulation (src/p5.js).

The simulation core is embedded shallowly: the mutable globals of the sketch
become fields of `GameState`, p5 vectors become explicit rational coordinates,
and every call to p5's `random(a, b)` is parametrized by a draw `u` so that
`random u a b = a + u * (b - a)` (a draw `u ∈ [0,1)` reproduces p5's
behaviour, but the embedding is total in `u`).  Calls to the persistence
store's `storeItem` are logged in the `writes` field.
-/

namespace AstroRun

/-- `const GRAVITY = 0.6` -/
def GRAVITY : ℚ := 3/5

/-- `const JUMP_FORCE = -11` -/
def JUMP_FORCE : ℚ := -11

/-- `const DOUBLE_JUMP_FORCE = -9` -/
def DOUBLE_JUMP_FORCE : ℚ := -9

/-- `const SCORE_MILESTONE = 100` -/
def SCORE_MILESTONE : ℕ := 100

/-- `const START_SPEED = 4` -/
def START_SPEED : ℚ := 4

/-- `const SPEED_INCREASE = 0.003` -/
def SPEED_INCREASE : ℚ := 3/1000

/-- p5's `random(a, b)`, parametrized by the draw `u` (uniform on `[0,1)`). -/
def random (u a b : ℚ) : ℚ := a + u * (b - a)

/-- p5's `max` on rationals (kernel-computable). -/
def rmax (a b : ℚ) : ℚ := if a ≤ b then b else a

/-- p5's `min` on rationals (kernel-computable). -/
def rmin (a b : ℚ) : ℚ := if a ≤ b then a else b

/-- The `Astronaut` class: position/velocity/acceleration vectors split into
components, fixed size `w = 40`, `h = 60`, grounded flag and jump counter. -/
structure Astronaut where
  x : ℚ
  y : ℚ
  vx : ℚ
  vy : ℚ
  ax : ℚ
  ay : ℚ
  w : ℚ
  h : ℚ
  isGrounded : Bool
  jumpCount : ℕ
deriving Repr, DecidableEq

/-- `Astronaut.reset(x, y)`: set position, zero velocity and acceleration,
grounded, jump counter cleared. -/
def Astronaut.reset (a : Astronaut) (x y : ℚ) : Astronaut :=
  { a with x := x, y := y, vx := 0, vy := 0, ax := 0, ay := 0,
           isGrounded := true, jumpCount := 0 }

/-- `applyForce` adds the force to the acceleration accumulator. -/
def Astronaut.applyForce (a : Astronaut) (fx fy : ℚ) : Astronaut :=
  { a with ax := a.ax + fx, ay := a.ay + fy }

/-- `applyGravity()`: `applyForce(createVector(0, GRAVITY))`. -/
def Astronaut.applyGravity (a : Astronaut) : Astronaut :=
  a.applyForce 0 GRAVITY

/-- `Astronaut.jump()`: first jump from the ground, else double jump if the
counter allows it, else nothing. -/
def Astronaut.jump (a : Astronaut) : Astronaut :=
  if a.isGrounded then
    { a with vy := JUMP_FORCE, isGrounded := false, jumpCount := 1 }
  else if a.jumpCount < 2 then
    { a with vy := DOUBLE_JUMP_FORCE, jumpCount := 2 }
  else a

/-- `Astronaut.update()`: integrate velocity and position, clear acceleration,
then the simple fall-through-ground clamp. -/
def Astronaut.update (a : Astronaut) (groundY : ℚ) : Astronaut :=
  let a1 : Astronaut := { a with vx := a.vx + a.ax, vy := a.vy + a.ay }
  let a2 : Astronaut := { a1 with x := a1.x + a1.vx, y := a1.y + a1.vy }
  let a3 : Astronaut := { a2 with ax := 0, ay := 0 }
  if a3.y + a3.h / 2 > groundY then
    { a3 with y := groundY - a3.h / 2, vy := 0, isGrounded := true, jumpCount := 0 }
  else a3

/-- `Astronaut.checkGroundCollision(gndY)`: snap to the ground when the lower
edge reached it while not moving upward; otherwise leave the state alone (in
particular `isGrounded` is never cleared here). -/
def Astronaut.checkGroundCollision (a : Astronaut) (gndY : ℚ) : Astronaut :=
  if a.y + a.h / 2 ≥ gndY ∧ a.vy ≥ 0 then
    { a with y := gndY - a.h / 2, vy := 0, isGrounded := true, jumpCount := 0 }
  else a

/-- The `Obstacle` class (color fields are visual-only and omitted). -/
structure Obstacle where
  x : ℚ
  y : ℚ
  w : ℚ
  h : ℚ
deriving Repr, DecidableEq

/-- `Obstacle.update(speed)`: `this.pos.x -= speed`. -/
def Obstacle.update (o : Obstacle) (speed : ℚ) : Obstacle :=
  { o with x := o.x - speed }

/-- `Obstacle.isOffscreen()`: `this.pos.x + this.w < 0`. -/
def Obstacle.isOffscreen (o : Obstacle) : Bool :=
  decide (o.x + o.w < 0)

/-- `Astronaut.hits(obstacle)`: axis-aligned bounding-box test; the astronaut
box is centered on its position, the obstacle box is anchored top-left. -/
def Astronaut.hits (a : Astronaut) (o : Obstacle) : Bool :=
  let astroLeft := a.x - a.w / 2
  let astroRight := a.x + a.w / 2
  let astroTop := a.y - a.h / 2
  let astroBottom := a.y + a.h / 2
  let obsLeft := o.x
  let obsRight := o.x + o.w
  let obsTop := o.y
  let obsBottom := o.y + o.h
  !(decide (astroRight < obsLeft ∨ astroLeft > obsRight ∨
            astroBottom < obsTop ∨ astroTop > obsBottom))

/-- `gameState`: `'START' | 'PLAYING' | 'GAME_OVER'`. -/
inductive Phase where
  | START
  | PLAYING
  | GAME_OVER
deriving Repr, DecidableEq

/-- The sketch's mutable globals (particles and the background drawer list are
visual-only and omitted).  `width`/`groundY` are the canvas constants fixed at
`setup`; `writes` logs every `storeItem` call made so far. -/
structure GameState where
  astronaut : Astronaut
  obstacles : List Obstacle
  score : ℕ
  highScore : ℕ
  currentMilestone : ℕ
  backgroundIndex : ℕ
  gameState : Phase
  obstacleSpeed : ℚ
  spawnTimer : ℚ
  spawnInterval : ℚ
  width : ℚ
  groundY : ℚ
  writes : List ℕ
deriving Repr, DecidableEq

/-- `spawnObstacle()`: height drawn from `[min(45, 20 + score/50), 60]`,
width from `[30, 50]`, pushed at `(width + w, groundY - h)`. -/
def spawnObstacle (s : GameState) (u1 u2 : ℚ) : GameState :=
  let minH := rmin 45 (20 + (s.score : ℚ) / 50)
  let maxH : ℚ := 60
  let h := random u1 minH maxH
  let w := random u2 30 50
  { s with obstacles := s.obstacles ++ [⟨s.width + w, s.groundY - h, w, h⟩] }

/-- The obstacle loop of `updateGame` (`for i = length-1 down to 0`): each
obstacle is advanced, collision-checked (`break` on hit) and spliced out when
offscreen.  Since the loop runs from the END of the array, the recursion
processes the tail (the later elements) first; a collision in the tail leaves
the earlier elements untouched, exactly like `break`.  Returns the resulting
list and whether a collision was detected. -/
def processObstacles (a : Astronaut) (speed : ℚ) : List Obstacle → List Obstacle × Bool
  | [] => ([], false)
  | o :: rest =>
    let pr := processObstacles a speed rest
    if pr.2 then (o :: pr.1, true)
    else
      let o' := o.update speed
      if a.hits o' then (o' :: pr.1, true)
      else if o'.isOffscreen then (pr.1, false)
      else (o' :: pr.1, false)

/-- `updateGame()`, transcribed statement by statement: score/difficulty,
milestone check, astronaut physics, spawning, then the obstacle loop with the
GAME_OVER / high-score commit on collision.  `u1 u2 u3` are the draws for the
obstacle height, the obstacle width and the spawn-timer reset. -/
def updateGame (s : GameState) (u1 u2 u3 : ℚ) : GameState :=
  let score := s.score + 1
  let obstacleSpeed := s.obstacleSpeed + SPEED_INCREASE
  let spawnInterval := rmax 40 (90 - (score : ℚ) / 15)
  let backgroundIndex :=
    if score ≥ s.currentMilestone then s.backgroundIndex + 1 else s.backgroundIndex
  let currentMilestone :=
    if score ≥ s.currentMilestone then s.currentMilestone + SCORE_MILESTONE
    else s.currentMilestone
  let astronaut :=
    ((s.astronaut.applyGravity).update s.groundY).checkGroundCollision s.groundY
  let spawnTimer := s.spawnTimer - 1
  let s1 : GameState :=
    { s with score := score, obstacleSpeed := obstacleSpeed,
             spawnInterval := spawnInterval, backgroundIndex := backgroundIndex,
             currentMilestone := currentMilestone, astronaut := astronaut,
             spawnTimer := spawnTimer }
  let s2 :=
    if spawnTimer ≤ 0 then
      { spawnObstacle s1 u1 u2 with
          spawnTimer := random u3 (spawnInterval * (4/5)) (spawnInterval * (6/5)) }
    else s1
  let pr := processObstacles s2.astronaut s2.obstacleSpeed s2.obstacles
  if pr.2 then
    let s3 : GameState := { s2 with obstacles := pr.1, gameState := Phase.GAME_OVER }
    if s3.score > s3.highScore then
      { s3 with highScore := s3.score, writes := s3.writes ++ [s3.score] }
    else s3
  else
    { s2 with obstacles := pr.1 }

/-- The score/difficulty/milestone block of `updateGame` (its first five
statements, lines 128-139 of the sketch). -/
def difficultyPhase (s : GameState) : GameState :=
  let score := s.score + 1
  { s with score := score,
           obstacleSpeed := s.obstacleSpeed + SPEED_INCREASE,
           spawnInterval := rmax 40 (90 - (score : ℚ) / 15),
           backgroundIndex :=
             if score ≥ s.currentMilestone then s.backgroundIndex + 1
             else s.backgroundIndex,
           currentMilestone :=
             if score ≥ s.currentMilestone then s.currentMilestone + SCORE_MILESTONE
             else s.currentMilestone }

/-- The astronaut block of `updateGame` (`applyGravity` / `update` /
`checkGroundCollision`, lines 142-144). -/
def astroPhase (s : GameState) : GameState :=
  { s with astronaut :=
      ((s.astronaut.applyGravity).update s.groundY).checkGroundCollision s.groundY }

/-- The spawning block of `updateGame` (`spawnTimer--` and the conditional
`spawnObstacle` with the randomized timer reset, lines 148-152). -/
def spawnPhase (s : GameState) (u1 u2 u3 : ℚ) : GameState :=
  if s.spawnTimer - 1 ≤ 0 then
    { spawnObstacle { s with spawnTimer := s.spawnTimer - 1 } u1 u2 with
        spawnTimer := random u3 (s.spawnInterval * (4/5)) (s.spawnInterval * (6/5)) }
  else { s with spawnTimer := s.spawnTimer - 1 }

/-- The obstacle loop of `updateGame` with the GAME_OVER transition and
high-score commit (lines 155-174). -/
def obstaclePhase (s : GameState) : GameState :=
  if (processObstacles s.astronaut s.obstacleSpeed s.obstacles).2 then
    if s.score > s.highScore then
      { s with obstacles := (processObstacles s.astronaut s.obstacleSpeed s.obstacles).1,
               gameState := Phase.GAME_OVER,
               highScore := s.score, writes := s.writes ++ [s.score] }
    else
      { s with obstacles := (processObstacles s.astronaut s.obstacleSpeed s.obstacles).1,
               gameState := Phase.GAME_OVER }
  else
    { s with obstacles := (processObstacles s.astronaut s.obstacleSpeed s.obstacles).1 }

/-- Whether `updateGame`, run from `s` with draws `u1 u2 u3`, detects a
collision in its obstacle loop this tick. -/
def collisionThisTick (s : GameState) (u1 u2 u3 : ℚ) : Bool :=
  let s2 := spawnPhase (astroPhase (difficultyPhase s)) u1 u2 u3
  (processObstacles s2.astronaut s2.obstacleSpeed s2.obstacles).2

/-- The tick in the order CLAIMED by the spec (for comparison with
`updateGame`): Difficulty Controller first, then spawning, obstacle advance
and collision detection, and the player physics update LAST, after collision
detection (on collision the phase transitions immediately, so the player
update does not run).  This definition follows the spec's words, not the
source, and exists only to be compared against `updateGame`. -/
def updateGameSpecOrdered (s : GameState) (u1 u2 u3 : ℚ) : GameState :=
  let s2 := spawnPhase (difficultyPhase s) u1 u2 u3
  let pr := processObstacles s2.astronaut s2.obstacleSpeed s2.obstacles
  if pr.2 then
    let s3 : GameState := { s2 with obstacles := pr.1, gameState := Phase.GAME_OVER }
    if s3.score > s3.highScore then
      { s3 with highScore := s3.score, writes := s3.writes ++ [s3.score] }
    else s3
  else
    astroPhase { s2 with obstacles := pr.1 }

/-- `resetGame()`: fresh run state; note `spawnTimer := spawnInterval` reads
the CURRENT `spawnInterval` global, which `resetGame` does not reset. -/
def resetGame (s : GameState) : GameState :=
  { s with score := 0,
           currentMilestone := SCORE_MILESTONE,
           backgroundIndex := 0,
           obstacles := [],
           obstacleSpeed := START_SPEED,
           spawnTimer := s.spawnInterval,
           astronaut := s.astronaut.reset (s.width / 4) (s.groundY - s.astronaut.h / 2) }

/-- `startGame()`: `resetGame()` then enter PLAYING. -/
def startGame (s : GameState) : GameState :=
  { resetGame s with gameState := Phase.PLAYING }

/-- The keys the sketch reacts to: Space (keyCode 32), R, anything else. -/
inductive Key where
  | space
  | rkey
  | other
deriving Repr, DecidableEq

/-- `keyPressed()`: Space jumps while PLAYING and starts the game from START;
R restarts from GAME_OVER; every other combination does nothing (particle
bursts are visual-only and omitted). -/
def keyPressed (s : GameState) (k : Key) : GameState :=
  match k with
  | Key.space =>
    match s.gameState with
    | Phase.PLAYING => { s with astronaut := s.astronaut.jump }
    | Phase.START => startGame s
    | Phase.GAME_OVER => s
  | Key.rkey =>
    match s.gameState with
    | Phase.GAME_OVER => startGame s
    | _ => s
  | Key.other => s

/-- The state-affecting part of `draw()`: in START the astronaut is pinned to
the ground in its idle pose; in PLAYING the simulation ticks via `updateGame`;
in GAME_OVER everything is frozen (rendering only). -/
def drawStep (s : GameState) (u1 u2 u3 : ℚ) : GameState :=
  match s.gameState with
  | Phase.START =>
    { s with astronaut :=
        { s.astronaut with y := s.groundY - s.astronaut.h / 2, vy := 0,
                           isGrounded := true, jumpCount := 0 } }
  | Phase.PLAYING => updateGame s u1 u2 u3
  | Phase.GAME_OVER => s

/-- `new Astronaut()`: size 40×60, then `reset(width/4, groundY - h/2)`. -/
def initAstronaut (width groundY : ℚ) : Astronaut :=
  Astronaut.reset ⟨0, 0, 0, 0, 0, 0, 40, 60, true, 0⟩ (width / 4) (groundY - 60 / 2)

/-- `setup()`: `groundY = height - GROUND_Y_OFFSET`, initial globals, the high
score read once from the store (`storedHighScore`, absent modelled as 0),
then `resetGame()`. -/
def setup (width height : ℚ) (storedHighScore : ℕ) : GameState :=
  let groundY := height - 80
  resetGame
    { astronaut := initAstronaut width groundY,
      obstacles := [],
      score := 0,
      highScore := storedHighScore,
      currentMilestone := SCORE_MILESTONE,
      backgroundIndex := 0,
      gameState := Phase.START,
      obstacleSpeed := START_SPEED,
      spawnTimer := 90,
      spawnInterval := 90,
      width := width,
      groundY := groundY,
      writes := [] }

/-- An external stimulus: a key press or a frame callback (with its random
draws). -/
inductive Event where
  | key (k : Key)
  | frame (u1 u2 u3 : ℚ)

/-- Dispatch of one external stimulus. -/
def handleEvent (s : GameState) : Event → GameState
  | Event.key k => keyPressed s k
  | Event.frame u1 u2 u3 => drawStep s u1 u2 u3

/-- The states the sketch can actually be in: `setup` followed by any
interleaving of key presses and frame callbacks. -/
inductive Reachable : GameState → Prop
  | init (width height : ℚ) (storedHighScore : ℕ) :
      Reachable (setup width height storedHighScore)
  | step (s : GameState) (e : Event) : Reachable s → Reachable (handleEvent s e)

/-- `n` frame callbacks with all random draws at the low end of their range. -/
def runTicks : ℕ → GameState → GameState
  | 0, s => s
  | n + 1, s => runTicks n (drawStep s 0 0 0)

/-- The inductive player invariant: acceleration is fully consumed at every
event boundary, the jump counter stays in range, and a grounded player is at
rest exactly on the ground line. -/
def PlayerInv (s : GameState) : Prop :=
  s.astronaut.ax = 0 ∧ s.astronaut.ay = 0 ∧ s.astronaut.jumpCount ≤ 2 ∧
  (s.astronaut.isGrounded = true →
    s.astronaut.vy = 0 ∧ s.astronaut.y = s.groundY - s.astronaut.h / 2)

/-! ## Theorems -/

/-- C2: `jump()` from the ground uses the first-jump impulse `JUMP_FORCE = -11`
and sets `jumpsUsed = 1`; airborne with `jumpsUsed < 2` it uses the
smaller-magnitude `DOUBLE_JUMP_FORCE = -9` and sets `jumpsUsed = 2`; airborne
with `jumpsUsed = 2` it is a complete no-op.  Hence two jumps before landing
give `jumpsUsed = 2` and a third call changes nothing (in particular the
velocity is unchanged). -/
theorem jump_spec (a : Astronaut) :
    JUMP_FORCE = -11 ∧ DOUBLE_JUMP_FORCE = -9 ∧
    (a.isGrounded = true →
      a.jump = { a with vy := JUMP_FORCE, isGrounded := false, jumpCount := 1 }) ∧
    (a.isGrounded = false → a.jumpCount < 2 →
      a.jump = { a with vy := DOUBLE_JUMP_FORCE, jumpCount := 2 }) ∧
    (a.isGrounded = false → a.jumpCount = 2 → a.jump = a) ∧
    (a.isGrounded = true →
      a.jump.jump.jumpCount = 2 ∧ a.jump.jump.jump = a.jump.jump) := by
  refine ⟨rfl, rfl, ?_, ?_, ?_, ?_⟩
  · intro h; simp [Astronaut.jump, h]
  · intro h hlt; simp [Astronaut.jump, h, hlt]
  · intro h h2; simp [Astronaut.jump, h, h2]
  · intro h; simp [Astronaut.jump, h]

/-- Witness for C2 at the freshly constructed astronaut (grounded, at rest):
a grounded jump, a double jump, and a third ignored attempt. -/
theorem jump_spec_witness :
    (initAstronaut 800 520).isGrounded = true ∧
    (initAstronaut 800 520).jump.jump.jumpCount = 2 ∧
    (initAstronaut 800 520).jump.jump.jump = (initAstronaut 800 520).jump.jump :=
  ⟨rfl, (jump_spec (initAstronaut 800 520)).2.2.2.2.2 rfl⟩

/-- C3: `checkGroundCollision(gndY)` with the lower edge at or below the
ground and non-negative `vy` snaps the lower edge to the ground, zeroes `vy`,
grounds the astronaut and resets the jump counter; with the lower edge above
the ground it changes nothing; and it never clears `isGrounded`. -/
theorem checkGroundCollision_spec (a : Astronaut) (gndY : ℚ) :
    (a.y + a.h / 2 ≥ gndY → a.vy ≥ 0 →
      a.checkGroundCollision gndY =
        { a with y := gndY - a.h / 2, vy := 0, isGrounded := true, jumpCount := 0 }) ∧
    (a.y + a.h / 2 < gndY → a.checkGroundCollision gndY = a) ∧
    (a.isGrounded = true → (a.checkGroundCollision gndY).isGrounded = true) := by
  refine ⟨?_, ?_, ?_⟩
  · intro h1 h2; simp [Astronaut.checkGroundCollision, h1, h2]
  · intro h; simp [Astronaut.checkGroundCollision, not_le.mpr h]
  · intro h
    unfold Astronaut.checkGroundCollision
    split <;> simp [h]

/-- Witness for C3: a falling astronaut 10 below the ground line is snapped
onto it, and one hovering above it is left alone. -/
theorem checkGroundCollision_spec_witness :
    (Astronaut.mk 200 500 0 7 0 0 40 60 false 2).checkGroundCollision 520 =
      Astronaut.mk 200 490 0 0 0 0 40 60 true 0 ∧
    (Astronaut.mk 200 400 0 7 0 0 40 60 false 2).checkGroundCollision 520 =
      Astronaut.mk 200 400 0 7 0 0 40 60 false 2 := by
  constructor
  · have h := (checkGroundCollision_spec (Astronaut.mk 200 500 0 7 0 0 40 60 false 2) 520).1
      (by norm_num) (by norm_num)
    rw [h]
    simp only [Astronaut.mk.injEq]
    norm_num
  · exact (checkGroundCollision_spec (Astronaut.mk 200 400 0 7 0 0 40 60 false 2) 520).2.1
      (by norm_num)

/-- C4: `hits` reports no collision exactly when the separating-axis
disjunction holds on the normalized boxes (astronaut centered, obstacle
top-left anchored), and boxes that merely touch on an edge, with overlap in
the other axis, count as colliding (closed-interval semantics). -/
theorem hits_spec (a : Astronaut) (o : Obstacle) :
    (a.hits o = false ↔
      (a.x + a.w / 2 < o.x ∨ a.x - a.w / 2 > o.x + o.w ∨
       a.y + a.h / 2 < o.y ∨ a.y - a.h / 2 > o.y + o.h)) ∧
    (0 ≤ a.w → 0 ≤ o.w → 0 ≤ a.h → 0 ≤ o.h →
      ((a.x + a.w / 2 = o.x →
          o.y ≤ a.y + a.h / 2 → a.y - a.h / 2 ≤ o.y + o.h → a.hits o = true) ∧
       (a.x - a.w / 2 = o.x + o.w →
          o.y ≤ a.y + a.h / 2 → a.y - a.h / 2 ≤ o.y + o.h → a.hits o = true) ∧
       (a.y + a.h / 2 = o.y →
          o.x ≤ a.x + a.w / 2 → a.x - a.w / 2 ≤ o.x + o.w → a.hits o = true) ∧
       (a.y - a.h / 2 = o.y + o.h →
          o.x ≤ a.x + a.w / 2 → a.x - a.w / 2 ≤ o.x + o.w → a.hits o = true))) := by
  have hiff : a.hits o = false ↔
      (a.x + a.w / 2 < o.x ∨ a.x - a.w / 2 > o.x + o.w ∨
       a.y + a.h / 2 < o.y ∨ a.y - a.h / 2 > o.y + o.h) := by
    simp only [Astronaut.hits, Bool.not_eq_false', decide_eq_true_eq]
  have htrue : a.hits o = true ↔
      ¬(a.x + a.w / 2 < o.x ∨ a.x - a.w / 2 > o.x + o.w ∨
        a.y + a.h / 2 < o.y ∨ a.y - a.h / 2 > o.y + o.h) := by
    rw [← hiff]
    cases a.hits o <;> simp
  refine ⟨hiff, ?_⟩
  intro haw how hah hoh
  refine ⟨?_, ?_, ?_, ?_⟩
  · intro he h1 h2
    rw [htrue]; push_neg
    exact ⟨by linarith, by linarith, by linarith, by linarith⟩
  · intro he h1 h2
    rw [htrue]; push_neg
    exact ⟨by linarith, by linarith, by linarith, by linarith⟩
  · intro he h1 h2
    rw [htrue]; push_neg
    exact ⟨by linarith, by linarith, by linarith, by linarith⟩
  · intro he h1 h2
    rw [htrue]; push_neg
    exact ⟨by linarith, by linarith, by linarith, by linarith⟩

/-- Witness for C4: an astronaut box whose right edge exactly meets an
obstacle's left edge (with vertical overlap) collides. -/
theorem hits_spec_witness :
    (Astronaut.mk 100 100 0 0 0 0 40 60 false 0).hits (Obstacle.mk 120 80 30 40) = true :=
  ((hits_spec (Astronaut.mk 100 100 0 0 0 0 40 60 false 0) (Obstacle.mk 120 80 30 40)).2
      (by norm_num) (by norm_num) (by norm_num) (by norm_num)).1
    (by norm_num) (by norm_num) (by norm_num)

/-- C8: `resetGame()` zeroes the score, environment index and milestone,
clears the obstacles, restores the start speed, sets the spawn timer to the
CURRENT (pre-reset) `spawnInterval` — which it leaves unchanged — and resets
the player to its standard start position, at rest, grounded, with the jump
counter cleared. -/
theorem resetGame_spec (s : GameState) :
    (resetGame s).score = 0 ∧
    (resetGame s).backgroundIndex = 0 ∧
    (resetGame s).currentMilestone = SCORE_MILESTONE ∧
    (resetGame s).obstacles = [] ∧
    (resetGame s).obstacleSpeed = START_SPEED ∧
    (resetGame s).spawnTimer = s.spawnInterval ∧
    (resetGame s).spawnInterval = s.spawnInterval ∧
    (resetGame s).astronaut =
      { s.astronaut with
          x := s.width / 4, y := s.groundY - s.astronaut.h / 2,
          vx := 0, vy := 0, ax := 0, ay := 0, isGrounded := true, jumpCount := 0 } ∧
    (resetGame s).gameState = s.gameState ∧
    (resetGame s).highScore = s.highScore := by
  refine ⟨rfl, rfl, rfl, rfl, rfl, rfl, rfl, rfl, rfl, rfl⟩

/-- C10: key events in phases where they have no role are complete no-ops:
Space during GAME_OVER, R during START or PLAYING, and any other key leave the
whole simulation state (an equality of `GameState` records, hence phase,
score, high score, player, obstacles, speed, timers) unchanged. -/
theorem keyPressed_noop (s : GameState) :
    (s.gameState = Phase.GAME_OVER → keyPressed s Key.space = s) ∧
    (s.gameState = Phase.START → keyPressed s Key.rkey = s) ∧
    (s.gameState = Phase.PLAYING → keyPressed s Key.rkey = s) ∧
    keyPressed s Key.other = s := by
  refine ⟨?_, ?_, ?_, rfl⟩ <;> intro h <;> simp [keyPressed, h]

/-- Witness for C10 on concrete states in each of the three phases. -/
theorem keyPressed_noop_witness :
    keyPressed { setup 800 600 0 with gameState := Phase.GAME_OVER } Key.space =
      { setup 800 600 0 with gameState := Phase.GAME_OVER } ∧
    keyPressed (setup 800 600 0) Key.rkey = setup 800 600 0 ∧
    keyPressed { setup 800 600 0 with gameState := Phase.PLAYING } Key.rkey =
      { setup 800 600 0 with gameState := Phase.PLAYING } ∧
    keyPressed (setup 800 600 0) Key.other = setup 800 600 0 :=
  ⟨(keyPressed_noop _).1 rfl, (keyPressed_noop _).2.1 rfl,
   (keyPressed_noop _).2.2.1 rfl, (keyPressed_noop _).2.2.2⟩

theorem rmax_eq_max (a b : ℚ) : rmax a b = max a b := by
  unfold rmax
  split
  · exact (max_eq_right (by assumption)).symm
  · exact (max_eq_left (le_of_not_le (by assumption))).symm

theorem rmin_eq_min (a b : ℚ) : rmin a b = min a b := by
  unfold rmin
  split
  · exact (min_eq_left (by assumption)).symm
  · exact (min_eq_right (le_of_not_le (by assumption))).symm

/-- `updateGame` is exactly the sequential composition of its four blocks in
source order: difficulty/milestones, then player physics, then spawning, then
the obstacle loop with collision handling. -/
theorem updateGame_phases (s : GameState) (u1 u2 u3 : ℚ) :
    updateGame s u1 u2 u3 =
      obstaclePhase (spawnPhase (astroPhase (difficultyPhase s)) u1 u2 u3) := rfl

/-- The spawning block touches only `obstacles` and `spawnTimer`. -/
theorem spawnPhase_proj (s : GameState) (u1 u2 u3 : ℚ) :
    (spawnPhase s u1 u2 u3).score = s.score ∧
    (spawnPhase s u1 u2 u3).highScore = s.highScore ∧
    (spawnPhase s u1 u2 u3).gameState = s.gameState ∧
    (spawnPhase s u1 u2 u3).obstacleSpeed = s.obstacleSpeed ∧
    (spawnPhase s u1 u2 u3).spawnInterval = s.spawnInterval ∧
    (spawnPhase s u1 u2 u3).backgroundIndex = s.backgroundIndex ∧
    (spawnPhase s u1 u2 u3).currentMilestone = s.currentMilestone ∧
    (spawnPhase s u1 u2 u3).astronaut = s.astronaut ∧
    (spawnPhase s u1 u2 u3).writes = s.writes ∧
    (spawnPhase s u1 u2 u3).groundY = s.groundY := by
  unfold spawnPhase spawnObstacle
  split <;> exact ⟨rfl, rfl, rfl, rfl, rfl, rfl, rfl, rfl, rfl, rfl⟩

/-- The obstacle loop block never touches the difficulty fields or the
astronaut. -/
theorem obstaclePhase_proj (s : GameState) :
    (obstaclePhase s).score = s.score ∧
    (obstaclePhase s).obstacleSpeed = s.obstacleSpeed ∧
    (obstaclePhase s).spawnInterval = s.spawnInterval ∧
    (obstaclePhase s).spawnTimer = s.spawnTimer ∧
    (obstaclePhase s).backgroundIndex = s.backgroundIndex ∧
    (obstaclePhase s).currentMilestone = s.currentMilestone ∧
    (obstaclePhase s).astronaut = s.astronaut ∧
    (obstaclePhase s).groundY = s.groundY := by
  unfold obstaclePhase
  split
  · split <;> exact ⟨rfl, rfl, rfl, rfl, rfl, rfl, rfl, rfl⟩
  · exact ⟨rfl, rfl, rfl, rfl, rfl, rfl, rfl, rfl⟩

/-- Splitting a tick run. -/
theorem runTicks_add (m n : ℕ) (s : GameState) :
    runTicks (m + n) s = runTicks n (runTicks m s) := by
  induction m generalizing s with
  | zero => rw [Nat.zero_add]; rfl
  | succ k ih =>
      have hkn : k + 1 + n = (k + n) + 1 := by omega
      rw [hkn]
      show runTicks (k + n) (drawStep s 0 0 0) = _
      rw [ih]
      rfl

/-- C6: every PLAYING tick adds exactly 1 to `score`, exactly
`SPEED_INCREASE = 0.003` to `obstacleSpeed`, and recomputes
`spawnInterval = max(40, 90 - score/15)` from the new score, so
`spawnInterval ≥ 40` after every tick regardless of the score. -/
theorem difficulty_tick (s : GameState) (u1 u2 u3 : ℚ) :
    SPEED_INCREASE = 3/1000 ∧
    (updateGame s u1 u2 u3).score = s.score + 1 ∧
    (updateGame s u1 u2 u3).obstacleSpeed = s.obstacleSpeed + SPEED_INCREASE ∧
    (updateGame s u1 u2 u3).spawnInterval = max 40 (90 - ((s.score : ℚ) + 1) / 15) ∧
    40 ≤ (updateGame s u1 u2 u3).spawnInterval := by
  obtain ⟨h1, h2, h3, h4, h5, h6, h7, h8⟩ :=
    obstaclePhase_proj (spawnPhase (astroPhase (difficultyPhase s)) u1 u2 u3)
  obtain ⟨g1, g2, g3, g4, g5, g6, g7, g8, g9, g10⟩ :=
    spawnPhase_proj (astroPhase (difficultyPhase s)) u1 u2 u3
  have hInterval : (updateGame s u1 u2 u3).spawnInterval =
      max 40 (90 - ((s.score : ℚ) + 1) / 15) := by
    rw [updateGame_phases, h3, g5]
    have : (astroPhase (difficultyPhase s)).spawnInterval =
        rmax 40 (90 - ((s.score + 1 : ℕ) : ℚ) / 15) := rfl
    rw [this, rmax_eq_max]
    push_cast
    ring_nf
  refine ⟨rfl, ?_, ?_, hInterval, ?_⟩
  · rw [updateGame_phases, h1, g1]; rfl
  · rw [updateGame_phases, h2, g4]; rfl
  · rw [hInterval]; exact le_max_left _ _

/-- Once a collision is detected, the obstacles still to be visited (the
earlier elements of the list, since the loop runs backwards from the end) are
not processed at all: not advanced, not collision-checked, not removed. -/
theorem processObstacles_break (a : Astronaut) (sp : ℚ) (l₁ l₂ : List Obstacle)
    (h : (processObstacles a sp l₂).2 = true) :
    processObstacles a sp (l₁ ++ l₂) = (l₁ ++ (processObstacles a sp l₂).1, true) := by
  induction l₁ with
  | nil =>
      simp only [List.nil_append]
      rw [← h]
  | cons o rest ih =>
      show processObstacles a sp (o :: (rest ++ l₂)) = _
      simp only [processObstacles, ih, List.cons_append]
      exact if_pos trivial

/-- Behaviour of the obstacle loop block on the phase, the high score and the
persistence-store writes, depending on whether a collision was detected. -/
theorem obstaclePhase_spec (s : GameState) :
    ((processObstacles s.astronaut s.obstacleSpeed s.obstacles).2 = true →
      (obstaclePhase s).gameState = Phase.GAME_OVER ∧
      (s.score > s.highScore →
        (obstaclePhase s).highScore = s.score ∧
        (obstaclePhase s).writes = s.writes ++ [s.score]) ∧
      (¬ s.score > s.highScore →
        (obstaclePhase s).highScore = s.highScore ∧
        (obstaclePhase s).writes = s.writes)) ∧
    ((processObstacles s.astronaut s.obstacleSpeed s.obstacles).2 = false →
      (obstaclePhase s).gameState = s.gameState ∧
      (obstaclePhase s).highScore = s.highScore ∧
      (obstaclePhase s).writes = s.writes) := by
  unfold obstaclePhase
  constructor
  · intro hc
    rw [if_pos hc]
    by_cases h2 : s.score > s.highScore
    · rw [if_pos h2]
      exact ⟨rfl, fun _ => ⟨rfl, rfl⟩, fun hn => absurd h2 hn⟩
    · rw [if_neg h2]
      exact ⟨rfl, fun hgt => absurd hgt h2, fun _ => ⟨rfl, rfl⟩⟩
  · intro hc
    rw [if_neg (by simp [hc])]
    exact ⟨rfl, rfl, rfl⟩

/-- C1: on the tick in which the obstacle loop detects a collision, the phase
becomes GAME_OVER; the store's `set` is invoked exactly once with the new
score if and only if it beats the high score (which is then updated to it),
and otherwise neither the high score nor the store changes.  Without a
collision, phase, high score and store stay untouched; a GAME_OVER frame
never writes either.  Finally, the obstacles placed before the colliding one
in the list are not further processed on that tick (`break`). -/
theorem collision_commit (s : GameState) (u1 u2 u3 : ℚ) :
    (collisionThisTick s u1 u2 u3 = true →
      (updateGame s u1 u2 u3).gameState = Phase.GAME_OVER ∧
      (s.score + 1 > s.highScore →
        (updateGame s u1 u2 u3).highScore = s.score + 1 ∧
        (updateGame s u1 u2 u3).writes = s.writes ++ [s.score + 1]) ∧
      (¬ s.score + 1 > s.highScore →
        (updateGame s u1 u2 u3).highScore = s.highScore ∧
        (updateGame s u1 u2 u3).writes = s.writes)) ∧
    (collisionThisTick s u1 u2 u3 = false →
      (updateGame s u1 u2 u3).gameState = s.gameState ∧
      (updateGame s u1 u2 u3).highScore = s.highScore ∧
      (updateGame s u1 u2 u3).writes = s.writes) ∧
    (∀ t : GameState, t.gameState = Phase.GAME_OVER →
      ∀ v1 v2 v3 : ℚ, drawStep t v1 v2 v3 = t) ∧
    (∀ (a : Astronaut) (sp : ℚ) (l₁ l₂ : List Obstacle),
      (processObstacles a sp l₂).2 = true →
      processObstacles a sp (l₁ ++ l₂) = (l₁ ++ (processObstacles a sp l₂).1, true)) := by
  obtain ⟨g1, g2, g3, g4, g5, g6, g7, g8, g9, g10⟩ :=
    spawnPhase_proj (astroPhase (difficultyPhase s)) u1 u2 u3
  have hsc : (spawnPhase (astroPhase (difficultyPhase s)) u1 u2 u3).score = s.score + 1 := by
    rw [g1]; rfl
  have hhs : (spawnPhase (astroPhase (difficultyPhase s)) u1 u2 u3).highScore = s.highScore := by
    rw [g2]; rfl
  have hgs : (spawnPhase (astroPhase (difficultyPhase s)) u1 u2 u3).gameState = s.gameState := by
    rw [g3]; rfl
  have hwr : (spawnPhase (astroPhase (difficultyPhase s)) u1 u2 u3).writes = s.writes := by
    rw [g9]; rfl
  have hspec := obstaclePhase_spec (spawnPhase (astroPhase (difficultyPhase s)) u1 u2 u3)
  rw [hsc, hhs, hgs, hwr] at hspec
  refine ⟨?_, ?_, ?_, processObstacles_break⟩
  · intro hc
    rw [updateGame_phases]
    exact hspec.1 hc
  · intro hc
    rw [updateGame_phases]
    exact hspec.2 hc
  · intro t ht v1 v2 v3
    unfold drawStep
    rw [ht]

/-- C7 (amended): within a PLAYING tick the sub-steps run in the order:
Difficulty Controller first, then the Player Entity physics update, then
obstacle spawning, and the obstacle list update with collision detection
LAST — so collision is tested against the already-updated player position of
this tick, and the player physics never runs after collision detection. -/
theorem tick_order (s : GameState) (u1 u2 u3 : ℚ) :
    updateGame s u1 u2 u3 =
      obstaclePhase (spawnPhase (astroPhase (difficultyPhase s)) u1 u2 u3) ∧
    (updateGame s u1 u2 u3).astronaut =
      ((s.astronaut.applyGravity).update s.groundY).checkGroundCollision s.groundY := by
  obtain ⟨h1, h2, h3, h4, h5, h6, h7, h8⟩ :=
    obstaclePhase_proj (spawnPhase (astroPhase (difficultyPhase s)) u1 u2 u3)
  obtain ⟨g1, g2, g3, g4, g5, g6, g7, g8, g9, g10⟩ :=
    spawnPhase_proj (astroPhase (difficultyPhase s)) u1 u2 u3
  refine ⟨updateGame_phases s u1 u2 u3, ?_⟩
  rw [updateGame_phases, h7, g8]; rfl

/-- The tick's astronaut block (`applyGravity`; `update`;
`checkGroundCollision`) preserves the player invariant, whatever the ground
line. -/
theorem astro_pipeline_inv (a : Astronaut) (gndY : ℚ)
    (hax : a.ax = 0) (hay : a.ay = 0) (hjc : a.jumpCount ≤ 2)
    (hg : a.isGrounded = true → a.vy = 0 ∧ a.y = gndY - a.h / 2) :
    (((a.applyGravity).update gndY).checkGroundCollision gndY).ax = 0 ∧
    (((a.applyGravity).update gndY).checkGroundCollision gndY).ay = 0 ∧
    (((a.applyGravity).update gndY).checkGroundCollision gndY).jumpCount ≤ 2 ∧
    (((a.applyGravity).update gndY).checkGroundCollision gndY).h = a.h ∧
    ((((a.applyGravity).update gndY).checkGroundCollision gndY).isGrounded = true →
      (((a.applyGravity).update gndY).checkGroundCollision gndY).vy = 0 ∧
      (((a.applyGravity).update gndY).checkGroundCollision gndY).y = gndY - a.h / 2) := by
  have hG : (0 : ℚ) < GRAVITY := by norm_num [GRAVITY]
  simp only [Astronaut.applyGravity, Astronaut.applyForce, Astronaut.update,
             Astronaut.checkGroundCollision]
  split_ifs with h1 h2 h3 <;> simp_all
  intro hgr
  obtain ⟨hv, hy⟩ := hg hgr
  rw [hv, hy] at h1
  linarith

/-- `jump()` (as dispatched by Space while PLAYING) preserves the player
invariant. -/
theorem jump_preserves_inv (s : GameState) (h : PlayerInv s) :
    PlayerInv { s with astronaut := s.astronaut.jump } := by
  obtain ⟨hax, hay, hjc, hg⟩ := h
  by_cases hgr : s.astronaut.isGrounded = true
  · refine ⟨?_, ?_, ?_, ?_⟩ <;> simp [PlayerInv, Astronaut.jump, hgr, hax, hay]
  · have hgr' : s.astronaut.isGrounded = false := by
      cases hb : s.astronaut.isGrounded
      · rfl
      · exact absurd hb hgr
    by_cases hlt : s.astronaut.jumpCount < 2
    · refine ⟨?_, ?_, ?_, ?_⟩ <;> simp [PlayerInv, Astronaut.jump, hgr', hlt, hax, hay]
    · have hj : s.astronaut.jump = s.astronaut := by
        simp [Astronaut.jump, hgr', hlt]
      rw [hj]
      exact ⟨hax, hay, hjc, hg⟩

/-- `resetGame()` (re-)establishes the player invariant. -/
theorem resetGame_inv (s : GameState) : PlayerInv (resetGame s) :=
  ⟨rfl, rfl, Nat.zero_le _, fun _ => ⟨rfl, rfl⟩⟩

/-- `startGame()` establishes the player invariant. -/
theorem startGame_inv (s : GameState) : PlayerInv (startGame s) :=
  ⟨rfl, rfl, Nat.zero_le _, fun _ => ⟨rfl, rfl⟩⟩

/-- `setup()` establishes the player invariant. -/
theorem setup_inv (w h : ℚ) (h0 : ℕ) : PlayerInv (setup w h h0) :=
  ⟨rfl, rfl, Nat.zero_le _, fun _ => ⟨rfl, rfl⟩⟩

/-- The astronaut a tick produces is exactly the astronaut block applied to
the pre-tick astronaut (whatever the obstacle loop does later). -/
theorem updateGame_astronaut (s : GameState) (u1 u2 u3 : ℚ) :
    (updateGame s u1 u2 u3).astronaut =
      ((s.astronaut.applyGravity).update s.groundY).checkGroundCollision s.groundY := by
  obtain ⟨h1, h2, h3, h4, h5, h6, h7, h8⟩ :=
    obstaclePhase_proj (spawnPhase (astroPhase (difficultyPhase s)) u1 u2 u3)
  obtain ⟨g1, g2, g3, g4, g5, g6, g7, g8, g9, g10⟩ :=
    spawnPhase_proj (astroPhase (difficultyPhase s)) u1 u2 u3
  rw [updateGame_phases, h7, g8]; rfl

/-- A tick never changes the ground line. -/
theorem updateGame_groundY (s : GameState) (u1 u2 u3 : ℚ) :
    (updateGame s u1 u2 u3).groundY = s.groundY := by
  obtain ⟨h1, h2, h3, h4, h5, h6, h7, h8⟩ :=
    obstaclePhase_proj (spawnPhase (astroPhase (difficultyPhase s)) u1 u2 u3)
  obtain ⟨g1, g2, g3, g4, g5, g6, g7, g8, g9, g10⟩ :=
    spawnPhase_proj (astroPhase (difficultyPhase s)) u1 u2 u3
  rw [updateGame_phases, h8, g10]; rfl

/-- Every external stimulus — any key press, any frame callback in any phase —
preserves the player invariant. -/
theorem handleEvent_inv (s : GameState) (e : Event) (h : PlayerInv s) :
    PlayerInv (handleEvent s e) := by
  obtain ⟨hax, hay, hjc, hg⟩ := h
  cases e with
  | key k =>
      cases k with
      | space =>
          cases hphase : s.gameState with
          | START =>
              simp only [handleEvent, keyPressed, hphase]
              exact startGame_inv s
          | PLAYING =>
              simp only [handleEvent, keyPressed, hphase]
              exact jump_preserves_inv s ⟨hax, hay, hjc, hg⟩
          | GAME_OVER =>
              simp only [handleEvent, keyPressed, hphase]
              exact ⟨hax, hay, hjc, hg⟩
      | rkey =>
          cases hphase : s.gameState with
          | START =>
              simp only [handleEvent, keyPressed, hphase]
              exact ⟨hax, hay, hjc, hg⟩
          | PLAYING =>
              simp only [handleEvent, keyPressed, hphase]
              exact ⟨hax, hay, hjc, hg⟩
          | GAME_OVER =>
              simp only [handleEvent, keyPressed, hphase]
              exact startGame_inv s
      | other =>
          exact ⟨hax, hay, hjc, hg⟩
  | frame u1 u2 u3 =>
      cases hphase : s.gameState with
      | START =>
          simp only [handleEvent, drawStep, hphase]
          exact ⟨hax, hay, Nat.zero_le _, fun _ => ⟨rfl, rfl⟩⟩
      | PLAYING =>
          simp only [handleEvent, drawStep, hphase]
          obtain ⟨p1, p2, p3, p4, p5⟩ :=
            astro_pipeline_inv s.astronaut s.groundY hax hay hjc hg
          unfold PlayerInv
          rw [updateGame_astronaut, updateGame_groundY]
          exact ⟨p1, p2, p3, fun hb => ⟨(p5 hb).1, by rw [(p5 hb).2, p4]⟩⟩
      | GAME_OVER =>
          simp only [handleEvent, drawStep, hphase]
          exact ⟨hax, hay, hjc, hg⟩

/-- The player invariant holds in every reachable state. -/
theorem reachable_inv (s : GameState) (h : Reachable s) : PlayerInv s := by
  induction h with
  | init w ht h0 => exact setup_inv w ht h0
  | step t e _ ih => exact handleEvent_inv t e ih

/-- C9: in every reachable state at an event boundary — after `setup` and
after any interleaving of key presses and frame ticks — the player satisfies
`jumpsUsed ∈ {0, 1, 2}`, and `isGrounded = true` implies `vy = 0`. -/
theorem player_invariant (s : GameState) (h : Reachable s) :
    (s.astronaut.jumpCount = 0 ∨ s.astronaut.jumpCount = 1 ∨
     s.astronaut.jumpCount = 2) ∧
    (s.astronaut.isGrounded = true → s.astronaut.vy = 0) := by
  obtain ⟨-, -, hjc, hg⟩ := reachable_inv s h
  exact ⟨by omega, fun hb => (hg hb).1⟩

/-- Witness for C9 at the freshly set-up game. -/
theorem player_invariant_witness :
    ((setup 800 600 0).astronaut.jumpCount = 0 ∨
     (setup 800 600 0).astronaut.jumpCount = 1 ∨
     (setup 800 600 0).astronaut.jumpCount = 2) ∧
    ((setup 800 600 0).astronaut.isGrounded = true →
      (setup 800 600 0).astronaut.vy = 0) :=
  player_invariant (setup 800 600 0) (Reachable.init 800 600 0)

section
attribute [local semireducible] Rat.add Rat.sub Rat.mul Rat.inv

set_option maxRecDepth 8000 in
/-- C5: on every tick, after the score increment, the environment index and
the milestone threshold increase by exactly 1 and exactly
`SCORE_MILESTONE = 100` when the new score has reached the threshold, and are
untouched otherwise (never more than one increment per tick); and concretely,
from a fresh run (score 0, index 0, milestone 100), after exactly 100 PLAYING
ticks without collision the index is 1 and the milestone is 200. -/
theorem milestone_tick (s : GameState) (u1 u2 u3 : ℚ) :
    SCORE_MILESTONE = 100 ∧
    ((updateGame s u1 u2 u3).backgroundIndex =
      if s.score + 1 ≥ s.currentMilestone then s.backgroundIndex + 1
      else s.backgroundIndex) ∧
    ((updateGame s u1 u2 u3).currentMilestone =
      if s.score + 1 ≥ s.currentMilestone then s.currentMilestone + SCORE_MILESTONE
      else s.currentMilestone) ∧
    (runTicks 100 (keyPressed (setup 800 600 0) Key.space)).backgroundIndex = 1 ∧
    (runTicks 100 (keyPressed (setup 800 600 0) Key.space)).currentMilestone = 200 := by
  obtain ⟨h1, h2, h3, h4, h5, h6, h7, h8⟩ :=
    obstaclePhase_proj (spawnPhase (astroPhase (difficultyPhase s)) u1 u2 u3)
  obtain ⟨g1, g2, g3, g4, g5, g6, g7, g8, g9, g10⟩ :=
    spawnPhase_proj (astroPhase (difficultyPhase s)) u1 u2 u3
  have hrun : runTicks 100 (keyPressed (setup 800 600 0) Key.space) =
      ⟨⟨200, 490, 0, 0, 0, 0, 40, 60, true, 0⟩,
       [⟨(156573 : ℚ) / 200, (2491 : ℚ) / 5, 30, (109 : ℚ) / 5⟩],
       100, 0, 200, 1, Phase.PLAYING, (43 : ℚ) / 10, (286 : ℚ) / 5, (250 : ℚ) / 3,
       800, 520, []⟩ := by
    have e0 : keyPressed (setup 800 600 0) Key.space =
        ⟨⟨200, 490, 0, 0, 0, 0, 40, 60, true, 0⟩, [], 0, 0, 100, 0, Phase.PLAYING,
         4, 90, 90, 800, 520, []⟩ := by decide
    have e1 : runTicks 25
        (⟨⟨200, 490, 0, 0, 0, 0, 40, 60, true, 0⟩, [], 0, 0, 100, 0, Phase.PLAYING,
          4, 90, 90, 800, 520, []⟩ : GameState) =
        ⟨⟨200, 490, 0, 0, 0, 0, 40, 60, true, 0⟩, [], 25, 0, 100, 0, Phase.PLAYING,
         (163 : ℚ) / 40, 65, (265 : ℚ) / 3, 800, 520, []⟩ := by decide
    have e2 : runTicks 25
        (⟨⟨200, 490, 0, 0, 0, 0, 40, 60, true, 0⟩, [], 25, 0, 100, 0, Phase.PLAYING,
          (163 : ℚ) / 40, 65, (265 : ℚ) / 3, 800, 520, []⟩ : GameState) =
        ⟨⟨200, 490, 0, 0, 0, 0, 40, 60, true, 0⟩, [], 50, 0, 100, 0, Phase.PLAYING,
         (83 : ℚ) / 20, 40, (260 : ℚ) / 3, 800, 520, []⟩ := by decide
    have e3 : runTicks 25
        (⟨⟨200, 490, 0, 0, 0, 0, 40, 60, true, 0⟩, [], 50, 0, 100, 0, Phase.PLAYING,
          (83 : ℚ) / 20, 40, (260 : ℚ) / 3, 800, 520, []⟩ : GameState) =
        ⟨⟨200, 490, 0, 0, 0, 0, 40, 60, true, 0⟩, [], 75, 0, 100, 0, Phase.PLAYING,
         (169 : ℚ) / 40, 15, 85, 800, 520, []⟩ := by decide
    have e4 : runTicks 25
        (⟨⟨200, 490, 0, 0, 0, 0, 40, 60, true, 0⟩, [], 75, 0, 100, 0, Phase.PLAYING,
          (169 : ℚ) / 40, 15, 85, 800, 520, []⟩ : GameState) =
        ⟨⟨200, 490, 0, 0, 0, 0, 40, 60, true, 0⟩,
         [⟨(156573 : ℚ) / 200, (2491 : ℚ) / 5, 30, (109 : ℚ) / 5⟩],
         100, 0, 200, 1, Phase.PLAYING, (43 : ℚ) / 10, (286 : ℚ) / 5, (250 : ℚ) / 3,
         800, 520, []⟩ := by decide
    rw [e0, show (100 : ℕ) = 25 + (25 + (25 + 25)) by norm_num,
        runTicks_add, e1, runTicks_add, e2, runTicks_add, e3, e4]
  refine ⟨rfl, ?_, ?_, ?_, ?_⟩
  · rw [updateGame_phases, h5, g6]; rfl
  · rw [updateGame_phases, h6, g7]; rfl
  · rw [hrun]
  · rw [hrun]

set_option maxRecDepth 8000 in
/-- Witness for C1: a PLAYING state with score 249 and high score 200 whose
obstacle overlaps the player this tick; the run ends with high score 250 and
exactly one store write of 250. -/
theorem collision_commit_witness :
    collisionThisTick
      ⟨⟨200, 490, 0, 0, 0, 0, 40, 60, true, 0⟩,
       [⟨(194003 : ℚ) / 1000, 480, 30, 40⟩],
       249, 200, 300, 2, Phase.PLAYING, 4, 50, 80, 800, 520, []⟩ 0 0 0 = true ∧
    (updateGame
      ⟨⟨200, 490, 0, 0, 0, 0, 40, 60, true, 0⟩,
       [⟨(194003 : ℚ) / 1000, 480, 30, 40⟩],
       249, 200, 300, 2, Phase.PLAYING, 4, 50, 80, 800, 520, []⟩ 0 0 0).gameState =
      Phase.GAME_OVER ∧
    (updateGame
      ⟨⟨200, 490, 0, 0, 0, 0, 40, 60, true, 0⟩,
       [⟨(194003 : ℚ) / 1000, 480, 30, 40⟩],
       249, 200, 300, 2, Phase.PLAYING, 4, 50, 80, 800, 520, []⟩ 0 0 0).highScore = 250 ∧
    (updateGame
      ⟨⟨200, 490, 0, 0, 0, 0, 40, 60, true, 0⟩,
       [⟨(194003 : ℚ) / 1000, 480, 30, 40⟩],
       249, 200, 300, 2, Phase.PLAYING, 4, 50, 80, 800, 520, []⟩ 0 0 0).writes = [250] := by
  have h := (collision_commit
    ⟨⟨200, 490, 0, 0, 0, 0, 40, 60, true, 0⟩,
     [⟨(194003 : ℚ) / 1000, 480, 30, 40⟩],
     249, 200, 300, 2, Phase.PLAYING, 4, 50, 80, 800, 520, []⟩ 0 0 0).1 (by decide)
  refine ⟨by decide, h.1, ?_, ?_⟩
  · have h2 := (h.2.1 (by norm_num)).1
    simpa using h2
  · have h2 := (h.2.1 (by norm_num)).2
    simpa using h2

set_option maxRecDepth 8000 in
/-- C7 as stated is false on the code: with a player falling onto an obstacle
the source tick (player physics BEFORE collision detection) ends the run,
while a tick that runs the player update last (after collision detection, as
the spec claims) does not detect the collision and stays in PLAYING. -/
theorem tick_order_counterexample :
    (updateGame
      ⟨⟨200, 385, 0, 10, 0, 0, 40, 60, false, 2⟩,
       [⟨(204003 : ℚ) / 1000, 420, 40, 100⟩],
       10, 0, 100, 0, Phase.PLAYING, 4, 50, 80, 800, 520, []⟩ 0 0 0).gameState =
      Phase.GAME_OVER ∧
    (updateGameSpecOrdered
      ⟨⟨200, 385, 0, 10, 0, 0, 40, 60, false, 2⟩,
       [⟨(204003 : ℚ) / 1000, 420, 40, 100⟩],
       10, 0, 100, 0, Phase.PLAYING, 4, 50, 80, 800, 520, []⟩ 0 0 0).gameState =
      Phase.PLAYING := by
  constructor <;> decide

end

end AstroRun
